import Mathlib

/-!
# Verification of the rag-backend `/api/chat` service

Shallow embedding of `src/main.py` (an Azure "on your data" RAG chat backend
built on FastAPI) together with proofs of the specification's claims about it.

The embedding models:
* the environment-variable configuration and its startup validation
  (`required_env_vars`, `missing_vars`, `startupCheck`);
* the pydantic request/response models (`ChatMessage`, `ChatRequest`,
  `Citation`, `ChatCompletionMessage`, `ChatResponse`);
* the upstream chat-completion response shape (`Completion`, `Choice`,
  `ResponseMessage`, `CompletionContext`, `CitationData`) where optional
  dictionary lookups (`.get`) are `Option`-valued fields;
* Python exceptions relevant to the handler's `except` clause as a record
  of the defensively probed attributes (`PyExn`);
* the `/api/chat` handler `chat_completion` as a function from the server
  state, the upstream call's behaviour and the request to an outcome plus
  the message list actually forwarded upstream (`none` when no upstream
  call was issued).

Components of the repository's other variants that are referenced by the
spec but absent from `src/` (the `/query` validator and prompt assembler)
are modelled from the spec and marked as such in their doc comments.
-/

namespace RagBackend

/-- Pydantic `ChatMessage` model from src/main.py: `{role : str, content : str}`. -/
structure ChatMessage where
  role : String
  content : String
deriving DecidableEq, Repr

/-- Pydantic `ChatRequest` model from src/main.py: `{messages : List[ChatMessage]}`. -/
structure ChatRequest where
  messages : List ChatMessage
deriving DecidableEq, Repr

/-- Pydantic `Citation` model from src/main.py: `content` is a required `str`,
the remaining fields are `Optional[str]` defaulting to `None`. -/
structure Citation where
  content : String
  title : Option String
  url : Option String
  filepath : Option String
  chunk_id : Option String
deriving DecidableEq, Repr

/-- Pydantic `ChatCompletionMessage` model from src/main.py:
`{role : str, content : str, citations : List[Citation] = []}`. -/
structure ChatCompletionMessage where
  role : String
  content : String
  citations : List Citation
deriving DecidableEq, Repr

/-- Pydantic `ChatResponse` model from src/main.py: `{message : ChatCompletionMessage}`. -/
structure ChatResponse where
  message : ChatCompletionMessage
deriving DecidableEq, Repr

/-- One citation record of the upstream completion's `context["citations"]` list.
Each field models a `cit_data.get(...)` dictionary lookup, so every field is
optional: `none` is Python's `None` (key absent or null). -/
structure CitationData where
  content : Option String
  title : Option String
  url : Option String
  filepath : Option String
  chunk_id : Option String
deriving DecidableEq, Repr

/-- The `context` attribute of the upstream response message.  `citations` models
`context.get("citations")`: `none` when the key is absent, `some l` when present. -/
structure CompletionContext where
  citations : Option (List CitationData)
deriving DecidableEq, Repr

/-- The `message` attribute of an upstream completion choice.  `content` may be
Python `None` (modelled `none`); `context` is absent (`none`) or a dict. -/
structure ResponseMessage where
  content : Option String
  context : Option CompletionContext
deriving DecidableEq, Repr

/-- One element of the upstream completion's `choices` list. -/
structure Choice where
  message : ResponseMessage
deriving DecidableEq, Repr

/-- The upstream chat-completion result object: a list of choices. -/
structure Completion where
  choices : List Choice
deriving DecidableEq, Repr

/-- A Python exception as seen by the handler's `except Exception as e` clause
(src/main.py:187-203).  The clause probes attributes defensively, so the model
records exactly those probes: `str_repr` is `str(e)`; `status_code` is
`e.status_code` when `hasattr(e, "status_code")`; `message` is `e.message` when
that attribute exists; `body_message` is `e.body["message"]` when `e.body`
exists, is truthy and holds that key; `response_text` is `e.response.text` when
both attributes exist. -/
structure PyExn where
  str_repr : String
  status_code : Option Nat
  message : Option String
  body_message : Option String
  response_text : Option String
deriving DecidableEq, Repr

/-- Behaviour of the awaited `openai_client.chat.completions.create(...)` call:
either it raises an exception or it returns a completion object. -/
inductive UpstreamResult where
  | raises (e : PyExn)
  | returns (c : Completion)
deriving DecidableEq, Repr

/-- The five environment variables read at module load (src/main.py:27-31).
`none` models an unset variable (`os.getenv` returning `None`); `some s` a
variable set to the string `s` (possibly empty). -/
structure EnvConfig where
  AZURE_OPENAI_ENDPOINT : Option String
  AZURE_OPENAI_GPT_DEPLOYMENT : Option String
  AZURE_OPENAI_EMBEDDING_DEPLOYMENT : Option String
  AZURE_SEARCH_ENDPOINT : Option String
  AZURE_SEARCH_INDEX_NAME : Option String
deriving DecidableEq, Repr

/-- The `required_env_vars` dict of src/main.py:38-44, as an association list
in the source's insertion order. -/
def required_env_vars (env : EnvConfig) : List (String × Option String) :=
  [("AZURE_OPENAI_ENDPOINT", env.AZURE_OPENAI_ENDPOINT),
   ("AZURE_OPENAI_GPT_DEPLOYMENT", env.AZURE_OPENAI_GPT_DEPLOYMENT),
   ("AZURE_OPENAI_EMBEDDING_DEPLOYMENT", env.AZURE_OPENAI_EMBEDDING_DEPLOYMENT),
   ("AZURE_SEARCH_ENDPOINT", env.AZURE_SEARCH_ENDPOINT),
   ("AZURE_SEARCH_INDEX_NAME", env.AZURE_SEARCH_INDEX_NAME)]

/-- `missing_vars = [var for var, val in required_env_vars.items() if val is None]`
(src/main.py:46). -/
def missing_vars (env : EnvConfig) : List String :=
  (required_env_vars env).filterMap (fun p => if p.2 = none then some p.1 else none)

/-- Python truthiness of an optional string: `None` and `""` are falsy. -/
def pyTruthyStr : Option String → Bool
  | none => false
  | some s => !(s == "")

/-- `all(required_env_vars.values())` as used by the handler's runtime re-check
(src/main.py:102): true when every required variable is set and non-empty. -/
def allEnvTruthy (env : EnvConfig) : Bool :=
  (required_env_vars env).all (fun p => pyTruthyStr p.2)

/-- Startup validation of the environment (src/main.py:46-52): `missing_vars`
is computed and, when non-empty, an error message is logged — but the
`raise EnvironmentError(error_message)` statement is commented out in the
source, so module import always succeeds and the app starts serving traffic
regardless of missing configuration. -/
def startupCheck (env : EnvConfig) : Except String EnvConfig :=
  .ok env

/-- Process-wide server state at request time: the environment as loaded at
import, and whether the `AsyncAzureOpenAI` client was constructed successfully
(src/main.py:82-95 sets `openai_client = None` on any construction failure). -/
structure ServerState where
  env : EnvConfig
  openai_client_initialized : Bool
deriving DecidableEq, Repr

/-- `next((msg.content for msg in reversed(request.messages) if msg.role == "user"), None)`
(src/main.py:108): the content of the last message whose role is `"user"`. -/
def lastUserContent (msgs : List ChatMessage) : Option String :=
  (msgs.reverse.find? (fun m => m.role == "user")).map ChatMessage.content

/-- The exception raised by pydantic when `Citation(content=None, ...)` is
constructed: `content` is a required `str` field, so `None` is rejected with a
`ValidationError`, which carries none of the attributes the handler probes. -/
def pydanticCitationExn : PyExn :=
  ⟨"1 validation error for Citation", none, none, none, none⟩

/-- The exception raised by pydantic when `ChatCompletionMessage` is built with
`content=None` (upstream returned a null message content). -/
def pydanticContentExn : PyExn :=
  ⟨"1 validation error for ChatCompletionMessage", none, none, none, none⟩

/-- Python's `IndexError` raised by `completion.choices[0]` on an empty list;
`str(e)` is `"list index out of range"` and it carries no probed attributes. -/
def indexOutOfRangeExn : PyExn :=
  ⟨"list index out of range", none, none, none, none⟩

/-- Construction `Citation(content=cit_data.get("content"), ...)`
(src/main.py:168-174): pydantic raises when the required `content` is `None`;
the optional fields pass through unchanged. -/
def mkCitation (c : CitationData) : Except PyExn Citation :=
  match c.content with
  | none => .error pydanticCitationExn
  | some s => .ok ⟨s, c.title, c.url, c.filepath, c.chunk_id⟩

/-- The `for cit_data in response_message.context["citations"]` loop
(src/main.py:167-174): records are converted in order and appended; the first
record whose construction raises aborts the loop (the exception propagates to
the surrounding `try`). -/
def buildCitations : List CitationData → Except PyExn (List Citation)
  | [] => .ok []
  | c :: rest =>
    match mkCitation c with
    | .error e => .error e
    | .ok cit =>
      match buildCitations rest with
      | .error e => .error e
      | .ok cits => .ok (cit :: cits)

/-- Citation extraction guard (src/main.py:166):
`if response_message.context and response_message.context.get("citations"):` —
the loop only runs when `context` is truthy and the `citations` value is a
truthy (non-empty) list; otherwise `citations_data` stays `[]`. -/
def extractCitations (rm : ResponseMessage) : Except PyExn (List Citation) :=
  match rm.context with
  | none => .ok []
  | some ctx =>
    match ctx.citations with
    | none => .ok []
    | some cits => if cits.isEmpty then .ok [] else buildCitations cits

/-- Body of the `try` block after the upstream call returned (src/main.py:162-185):
take `choices[0].message` (raising `IndexError` on an empty list), extract the
citations, then build the `ChatResponse` with role `"assistant"` and the first
choice's content (pydantic raising when that content is `None`). -/
def processCompletion (completion : Completion) : Except PyExn ChatResponse :=
  match completion.choices with
  | [] => .error indexOutOfRangeExn
  | choice :: _ =>
    let response_message := choice.message
    match extractCitations response_message with
    | .error e => .error e
    | .ok citations_data =>
      match response_message.content with
      | none => .error pydanticContentExn
      | some chat_response_content =>
        .ok ⟨⟨"assistant", chat_response_content, citations_data⟩⟩

/-- Detail-string selection of the `except` clause (src/main.py:191-200):
`error_detail` starts as `str(e)`; only when the exception exposes a
`status_code` does the clause try `e.message`, then `e.body["message"]`, then
`e.response.text`, keeping `str(e)` if none of those is present. -/
def upstreamDetail (e : PyExn) : String :=
  match e.status_code with
  | none => e.str_repr
  | some _ =>
    match e.message with
    | some m => m
    | none =>
      match e.body_message with
      | some m => m
      | none =>
        match e.response_text with
        | some t => t
        | none => e.str_repr

/-- Status-code selection of the `except` clause (src/main.py:192-194):
`e.status_code` when the attribute exists, `500` otherwise. -/
def upstreamStatus (e : PyExn) : Nat :=
  e.status_code.getD 500

/-- The `except Exception` clause (src/main.py:187-203): re-raise as
`HTTPException(status_code, "Erro ao processar a requisição de chat: " + detail)`. -/
def handleChatError (e : PyExn) : Nat × String :=
  (upstreamStatus e, "Erro ao processar a requisição de chat: " ++ upstreamDetail e)

/-- Result of one `/api/chat` request: either an `HTTPException` with a status
code and a detail string, or a successful `ChatResponse`. -/
inductive HandlerOutcome where
  | http_error (status : Nat) (detail : String)
  | ok (response : ChatResponse)
deriving DecidableEq, Repr

/-- Status code of an outcome, `none` on success. -/
def statusOf : HandlerOutcome → Option Nat
  | .http_error c _ => some c
  | .ok _ => none

/-- Detail string of an outcome, `none` on success. -/
def detailOf : HandlerOutcome → Option String
  | .http_error _ d => some d
  | .ok _ => none

/-- `true` exactly on successful outcomes. -/
def isOkOutcome : HandlerOutcome → Bool
  | .http_error _ _ => false
  | .ok _ => true

/-- One `/api/chat` request together with the `messages` list that was actually
forwarded to the chat-completion service: `forwarded = none` means the handler
returned before issuing the upstream call. -/
structure HandlerTrace where
  outcome : HandlerOutcome
  forwarded : Option (List ChatMessage)
deriving DecidableEq, Repr

/-- The `/api/chat` handler `chat_completion` (src/main.py:98-203).
In source order: return 503 when `openai_client` is `None`; return 500 when
`all(required_env_vars.values())` is false; take the last user message's
content and return 400 when it is `None` or empty (`if not user_message`);
otherwise forward exactly `[{"role": "user", "content": user_message}]`
upstream and translate the upstream behaviour into the response, any raised
exception going through the `except` clause. -/
def chat_completion (s : ServerState) (upstream : UpstreamResult)
    (request : ChatRequest) : HandlerTrace :=
  if !s.openai_client_initialized then
    ⟨.http_error 503 "Serviço OpenAI não está disponível devido a erro de configuração.", none⟩
  else if !allEnvTruthy s.env then
    ⟨.http_error 500 ("Configuração incompleta do servidor. Variáveis faltando: "
        ++ String.intercalate ", " (missing_vars s.env)), none⟩
  else
    match lastUserContent request.messages with
    | none => ⟨.http_error 400 "Nenhuma mensagem de usuário encontrada no request.", none⟩
    | some user_message =>
      if user_message == "" then
        ⟨.http_error 400 "Nenhuma mensagem de usuário encontrada no request.", none⟩
      else
        let messages_for_api : List ChatMessage := [⟨"user", user_message⟩]
        match upstream with
        | .raises e =>
          ⟨.http_error (handleChatError e).1 (handleChatError e).2, some messages_for_api⟩
        | .returns completion =>
          match processCompletion completion with
          | .ok resp => ⟨.ok resp, some messages_for_api⟩
          | .error e =>
            ⟨.http_error (handleChatError e).1 (handleChatError e).2, some messages_for_api⟩

/-- A fully configured environment, used for concrete witnesses. -/
def envOK : EnvConfig :=
  ⟨some "https://aoai.example.net", some "gpt-4o-mini",
   some "text-embedding-ada-002", some "https://search.example.net", some "docs-index"⟩

/-- A healthy server state: full configuration, client constructed. -/
def serverOK : ServerState := ⟨envOK, true⟩

/-- An environment in which `AZURE_OPENAI_ENDPOINT` is unset and everything
else is configured, used to exercise the startup validation. -/
def envMissingEndpoint : EnvConfig :=
  ⟨none, some "gpt-4o-mini", some "text-embedding-ada-002",
   some "https://search.example.net", some "docs-index"⟩

/-- `t` occurs in `s` as a contiguous substring. -/
def IsSubstringOf (t s : String) : Prop :=
  ∃ p q : String, s = p ++ t ++ q

/-- Pattern `pat` matches at the head of `l`. -/
def startsWithChars : List Char → List Char → Bool
  | [], _ => true
  | _ :: _, [] => false
  | a :: as, b :: bs => a == b && startsWithChars as bs

/-- Pattern `pat` occurs somewhere in `l`. -/
def occursInChars (pat : List Char) : List Char → Bool
  | [] => startsWithChars pat []
  | b :: bs => startsWithChars pat (b :: bs) || occursInChars pat bs

/-- Executable substring test on strings. -/
def occursIn (pat s : String) : Bool :=
  occursInChars pat.toList s.toList

/-- Modelled from the spec: the prompt assembler of the `/query` variants is not
in `src/` (only the `/api/chat` variant is); §4.4 fixes its user-message
template verbatim: "Use the following context excerpts to answer the
question.\n\nContext:\n{context}\n\nQuestion: {query}\n\nAnswer:". -/
def assembleUserMessage (context query : String) : String :=
  "Use the following context excerpts to answer the question.\n\nContext:\n"
    ++ context ++ "\n\nQuestion: " ++ query ++ "\n\nAnswer:"

/-- Modelled from the spec: the `/query` request of the other variants
(§3, §6): `{query: string, top_k?: integer}`; not in `src/`. -/
structure QueryRequest where
  query : String
  top_k : Option Int
deriving DecidableEq, Repr

/-- Modelled from the spec (§3): the result-count parameter defaults to 5 when
absent. -/
def result_limit (r : QueryRequest) : Int :=
  r.top_k.getD 5

/-- Outcome of request validation: pass, or a client-error (HTTP 400-class)
signal with a message. -/
inductive ValidationResult where
  | valid
  | clientError (msg : String)
deriving DecidableEq, Repr

/-- Modelled from the spec: the request validator of the `/query` variants is
not in `src/`; §4.1 fixes its contract: "reject (with a client-error signal)
any request whose result_limit is outside [1,20] or whose query text is empty.
No side effects. Pure validation; no external calls." -/
def validateQuery (r : QueryRequest) : ValidationResult :=
  if r.query == "" then
    .clientError "query text must be non-empty"
  else if result_limit r < 1 ∨ 20 < result_limit r then
    .clientError "result_limit must be in [1,20]"
  else
    .valid

/-- The `Citation` produced from a record all of whose required data is
present (used to state what the citation loop yields on clean input). -/
def citOf (c : CitationData) : Citation :=
  ⟨c.content.getD "", c.title, c.url, c.filepath, c.chunk_id⟩

/-- The citation list carried by an optional completion context, `[]` when the
context or the list is absent. -/
def ctxCitations : Option CompletionContext → List CitationData
  | none => []
  | some ctx => ctx.citations.getD []

/-- A completion with one choice whose message has content `a` and a context
carrying the citation list `cits` (used for concrete scenarios). -/
def completionWith (a : String) (cits : List CitationData) : Completion :=
  ⟨[⟨⟨some a, some ⟨some cits⟩⟩⟩]⟩

/-! ## Helper lemmas -/

/-- When every citation record carries a content value, the citation loop
converts every record, in order, without skipping any. -/
lemma buildCitations_ok : ∀ (cits : List CitationData),
    cits.all (fun c => c.content.isSome) = true →
    buildCitations cits = .ok (cits.map citOf)
  | [], _ => rfl
  | c :: rest, h => by
    rw [List.all_cons, Bool.and_eq_true] at h
    obtain ⟨h1, h2⟩ := h
    cases hc : c.content with
    | none => rw [hc] at h1; exact absurd h1 (by simp)
    | some s =>
      unfold buildCitations
      rw [buildCitations_ok rest h2]
      simp [mkCitation, hc, citOf]

/-- When some citation record is missing its content, the citation loop raises
the pydantic validation error (and the remaining records are not processed). -/
lemma buildCitations_err : ∀ (cits : List CitationData),
    cits.all (fun c => c.content.isSome) = false →
    buildCitations cits = .error pydanticCitationExn
  | [], h => by simp at h
  | c :: rest, h => by
    cases hc : c.content with
    | none => unfold buildCitations; simp [mkCitation, hc]
    | some s =>
      rw [List.all_cons, hc] at h
      simp only [Option.isSome_some, Bool.true_and] at h
      unfold buildCitations
      rw [buildCitations_err rest h]
      simp [mkCitation, hc]

/-- Citation extraction on a response message all of whose citation records
carry content: yields exactly the converted records, in order. -/
lemma extractCitations_clean (a : Option String) (octx : Option CompletionContext)
    (h : ∀ c ∈ ctxCitations octx, c.content.isSome = true) :
    extractCitations ⟨a, octx⟩ = .ok ((ctxCitations octx).map citOf) := by
  cases octx with
  | none => rfl
  | some ctx =>
    cases hc : ctx.citations with
    | none => simp [extractCitations, ctxCitations, hc]
    | some cits =>
      have h' : ∀ c ∈ cits, c.content.isSome = true := by
        simpa [ctxCitations, hc] using h
      simp only [extractCitations, ctxCitations, hc, Option.getD_some]
      cases cits with
      | nil => rfl
      | cons c r =>
        rw [if_neg (by simp)]
        exact buildCitations_ok _ (List.all_eq_true.mpr h')

/-- `processCompletion` on a one-choice completion with content and citation
list: succeeds exactly when every citation record carries content. -/
lemma processCompletion_completionWith (a : String) (cits : List CitationData) :
    processCompletion (completionWith a cits) =
      if cits.all (fun c => c.content.isSome) then
        .ok ⟨⟨"assistant", a, cits.map citOf⟩⟩
      else
        .error pydanticCitationExn := by
  by_cases hall : cits.all (fun c => c.content.isSome) = true
  · rw [if_pos hall]
    simp only [processCompletion, completionWith]
    rw [extractCitations_clean (some a) (some ⟨some cits⟩)
      (by simpa [ctxCitations] using List.all_eq_true.mp hall)]
    rfl
  · rw [if_neg hall]
    rw [Bool.not_eq_true] at hall
    have hne2 : cits ≠ [] := by
      intro hnil; rw [hnil] at hall; simp at hall
    simp only [processCompletion, completionWith, extractCitations]
    rw [if_neg (by simpa using hne2)]
    rw [buildCitations_err cits hall]

/-- A request with no `"user"`-role message has no last user content. -/
lemma lastUserContent_eq_none_of_no_user (msgs : List ChatMessage)
    (h : ∀ m ∈ msgs, m.role ≠ "user") :
    lastUserContent msgs = none := by
  unfold lastUserContent
  rw [List.find?_eq_none.mpr]
  · rfl
  · intro m hm
    have := h m (List.mem_reverse.mp hm)
    simp [this]

/-- Under a healthy server state and a non-empty last user message, the handler
forwards exactly the single user message and translates the upstream behaviour. -/
lemma chat_completion_eq_after (s : ServerState) (upstream : UpstreamResult)
    (request : ChatRequest) (u : String)
    (hclient : s.openai_client_initialized = true)
    (henv : allEnvTruthy s.env = true)
    (huser : lastUserContent request.messages = some u)
    (hne : u ≠ "") :
    chat_completion s upstream request =
      match upstream with
      | .raises e =>
        ⟨.http_error (handleChatError e).1 (handleChatError e).2, some [⟨"user", u⟩]⟩
      | .returns completion =>
        match processCompletion completion with
        | .ok resp => ⟨.ok resp, some [⟨"user", u⟩]⟩
        | .error e =>
          ⟨.http_error (handleChatError e).1 (handleChatError e).2, some [⟨"user", u⟩]⟩ := by
  unfold chat_completion
  rw [hclient, henv, huser]
  simp [hne]

/-- Specialisation of `chat_completion_eq_after` to a returning upstream call. -/
lemma chat_completion_returns (s : ServerState) (completion : Completion)
    (request : ChatRequest) (u : String)
    (hclient : s.openai_client_initialized = true)
    (henv : allEnvTruthy s.env = true)
    (huser : lastUserContent request.messages = some u)
    (hne : u ≠ "") :
    chat_completion s (.returns completion) request =
      match processCompletion completion with
      | .ok resp => ⟨.ok resp, some [⟨"user", u⟩]⟩
      | .error e =>
        ⟨.http_error (handleChatError e).1 (handleChatError e).2, some [⟨"user", u⟩]⟩ := by
  rw [chat_completion_eq_after s (.returns completion) request u hclient henv huser hne]

/-- Specialisation of `chat_completion_eq_after` to a raising upstream call. -/
lemma chat_completion_raises (s : ServerState) (e : PyExn)
    (request : ChatRequest) (u : String)
    (hclient : s.openai_client_initialized = true)
    (henv : allEnvTruthy s.env = true)
    (huser : lastUserContent request.messages = some u)
    (hne : u ≠ "") :
    chat_completion s (.raises e) request =
      ⟨.http_error (handleChatError e).1 (handleChatError e).2, some [⟨"user", u⟩]⟩ := by
  rw [chat_completion_eq_after s (.raises e) request u hclient henv huser hne]

/-! ## Claim theorems -/

/-- Claim C1, counterexample: with a healthy server and the request
`{messages: [{role: "user", content: "hi"}]}`, a successful upstream call
returning zero choices does not produce the placeholder answer; accessing
`choices[0]` raises `IndexError`, which the generic `except` clause turns into
an HTTP 500 error response. -/
theorem c1_empty_choices_counterexample :
    (chat_completion serverOK (.returns ⟨[]⟩) ⟨[⟨"user", "hi"⟩]⟩).outcome
      = .http_error 500 "Erro ao processar a requisição de chat: list index out of range" := by
  decide

/-- Claim C1 (amended): for every `/api/chat` request on a healthy server whose
last user message is non-empty, an upstream completion with zero choices makes
the request fail with HTTP 500 and detail
"Erro ao processar a requisição de chat: list index out of range" (the
`IndexError` from `completion.choices[0]`); no placeholder answer is returned. -/
theorem c1_empty_choices_http_500 (s : ServerState) (request : ChatRequest) (u : String)
    (hclient : s.openai_client_initialized = true)
    (henv : allEnvTruthy s.env = true)
    (huser : lastUserContent request.messages = some u)
    (hne : u ≠ "") :
    chat_completion s (.returns ⟨[]⟩) request =
      ⟨.http_error 500 "Erro ao processar a requisição de chat: list index out of range",
       some [⟨"user", u⟩]⟩ := by
  rw [chat_completion_returns s ⟨[]⟩ request u hclient henv huser hne]
  rfl

/-- Claim C1 witness: the amended statement at a concrete healthy state. -/
theorem c1_empty_choices_http_500_witness :
    chat_completion serverOK (.returns ⟨[]⟩) ⟨[⟨"user", "oi"⟩]⟩ =
      ⟨.http_error 500 "Erro ao processar a requisição de chat: list index out of range",
       some [⟨"user", "oi"⟩]⟩ :=
  c1_empty_choices_http_500 serverOK ⟨[⟨"user", "oi"⟩]⟩ "oi" rfl (by decide) (by decide)
    (by decide)

/-- Claim C2: on a healthy server, a request whose messages carry no
`"user"`-role message is rejected with HTTP 400 and the fixed detail message,
and no message list is forwarded upstream (`forwarded = none`): the
data-source and generator services are never contacted. -/
theorem c2_no_user_message_rejected_400 (s : ServerState) (upstream : UpstreamResult)
    (request : ChatRequest)
    (hclient : s.openai_client_initialized = true)
    (henv : allEnvTruthy s.env = true)
    (hnouser : ∀ m ∈ request.messages, m.role ≠ "user") :
    chat_completion s upstream request =
      ⟨.http_error 400 "Nenhuma mensagem de usuário encontrada no request.", none⟩ := by
  unfold chat_completion
  rw [hclient, henv, lastUserContent_eq_none_of_no_user request.messages hnouser]
  rfl

/-- Claim C2 witness: a concrete system+assistant-only request is rejected. -/
theorem c2_no_user_message_rejected_400_witness :
    chat_completion serverOK (.returns (completionWith "ans" []))
        ⟨[⟨"system", "instrução"⟩, ⟨"assistant", "olá"⟩]⟩ =
      ⟨.http_error 400 "Nenhuma mensagem de usuário encontrada no request.", none⟩ :=
  c2_no_user_message_rejected_400 serverOK (.returns (completionWith "ans" []))
    ⟨[⟨"system", "instrução"⟩, ⟨"assistant", "olá"⟩]⟩ rfl (by decide) (by decide)

/-- Claim C3, counterexample: a citations list whose second record is missing
its `content` field is not skipped — the pydantic `Citation` construction
raises, the loop stops (the third record is never processed) and the whole
request fails with HTTP 500. -/
theorem c3_missing_content_aborts_counterexample :
    (chat_completion serverOK
        (.returns (completionWith "ans"
          [⟨some "c1", none, none, none, none⟩,
           ⟨none, some "t2", none, none, none⟩,
           ⟨some "c3", none, none, none, none⟩]))
        ⟨[⟨"user", "hi"⟩]⟩).outcome
      = .http_error 500 "Erro ao processar a requisição de chat: 1 validation error for Citation" := by
  decide

/-- Claim C3 (amended): on a healthy server, citation records are never
skipped: when every record carries its `content` field the response holds all
records converted in order (missing optional fields become `None`), and when
any record is missing `content` the pydantic validation error aborts the whole
request with HTTP 500. -/
theorem c3_citation_records_all_or_abort (s : ServerState) (request : ChatRequest)
    (u a : String) (cits : List CitationData)
    (hclient : s.openai_client_initialized = true)
    (henv : allEnvTruthy s.env = true)
    (huser : lastUserContent request.messages = some u)
    (hne : u ≠ "") :
    if cits.all (fun c => c.content.isSome) then
      chat_completion s (.returns (completionWith a cits)) request =
        ⟨.ok ⟨⟨"assistant", a, cits.map citOf⟩⟩, some [⟨"user", u⟩]⟩
    else
      chat_completion s (.returns (completionWith a cits)) request =
        ⟨.http_error 500
           "Erro ao processar a requisição de chat: 1 validation error for Citation",
         some [⟨"user", u⟩]⟩ := by
  by_cases hall : cits.all (fun c => c.content.isSome) = true
  · rw [if_pos hall, chat_completion_returns s _ request u hclient henv huser hne,
      processCompletion_completionWith, if_pos hall]
  · rw [if_neg hall, chat_completion_returns s _ request u hclient henv huser hne,
      processCompletion_completionWith, if_neg hall]
    rfl

/-- Claim C3 witness: the amended statement at a concrete clean citation list. -/
theorem c3_citation_records_all_or_abort_witness :
    chat_completion serverOK
        (.returns (completionWith "ans" [⟨some "c1", some "t1", none, none, none⟩]))
        ⟨[⟨"user", "hi"⟩]⟩ =
      ⟨.ok ⟨⟨"assistant", "ans", [⟨"c1", some "t1", none, none, none⟩]⟩⟩,
       some [⟨"user", "hi"⟩]⟩ := by
  have h := c3_citation_records_all_or_abort serverOK ⟨[⟨"user", "hi"⟩]⟩ "hi" "ans"
    [⟨some "c1", some "t1", none, none, none⟩] rfl (by decide) (by decide) (by decide)
  rw [if_pos (by decide)] at h
  exact h.trans (by decide)

/-- Claim C4: startup with a missing required variable does not fail fast —
the `raise` is commented out (`startupCheck` succeeds), the app starts, and an
`/api/chat` request is then served a degraded HTTP 500 response naming the
missing variable, contradicting the fail-fast requirement. -/
theorem c4_missing_config_still_serves :
    missing_vars envMissingEndpoint = ["AZURE_OPENAI_ENDPOINT"]
    ∧ startupCheck envMissingEndpoint = .ok envMissingEndpoint
    ∧ chat_completion ⟨envMissingEndpoint, true⟩ (.returns ⟨[]⟩) ⟨[⟨"user", "q"⟩]⟩ =
        ⟨.http_error 500
           "Configuração incompleta do servidor. Variáveis faltando: AZURE_OPENAI_ENDPOINT",
         none⟩ :=
  ⟨by decide, rfl, by decide⟩

/-- Claim C5: whenever the OpenAI client failed to initialize at startup
(`openai_client is None`), every `/api/chat` request fails with HTTP 503 and
the fixed human-readable detail string, and no message list is forwarded
upstream (`forwarded = none`). -/
theorem c5_client_not_initialized_503 (s : ServerState) (upstream : UpstreamResult)
    (request : ChatRequest)
    (hclient : s.openai_client_initialized = false) :
    chat_completion s upstream request =
      ⟨.http_error 503 "Serviço OpenAI não está disponível devido a erro de configuração.",
       none⟩ := by
  unfold chat_completion
  rw [hclient]
  rfl

/-- Claim C5 witness: concrete request against an uninitialized client. -/
theorem c5_client_not_initialized_503_witness :
    chat_completion ⟨envOK, false⟩ (.returns ⟨[]⟩) ⟨[⟨"user", "q"⟩]⟩ =
      ⟨.http_error 503 "Serviço OpenAI não está disponível devido a erro de configuração.",
       none⟩ :=
  c5_client_not_initialized_503 ⟨envOK, false⟩ (.returns ⟨[]⟩) ⟨[⟨"user", "q"⟩]⟩ rfl

/-- Claim C6, counterexample: an exception exposing `message` but no
`status_code` is translated to HTTP 500 with detail built from `str(e)`; the
upstream message is not included in the detail string. -/
theorem c6_message_without_status_counterexample :
    (chat_completion serverOK
        (.raises ⟨"Connection error.", none, some "upstream message detail", none, none⟩)
        ⟨[⟨"user", "q"⟩]⟩).outcome
      = .http_error 500 "Erro ao processar a requisição de chat: Connection error."
    ∧ occursIn "upstream message detail"
        "Erro ao processar a requisição de chat: Connection error." = false := by
  exact ⟨by decide, by decide⟩

/-- Claim C6 (amended): on a healthy server, a raising chat call yields an
error response whose status is the exception's `status_code` when exposed and
500 otherwise, and whose detail is the prefixed `upstreamDetail`; the upstream
message is included exactly when the exception also exposes a status code
(otherwise the detail carries `str(e)`).  The call is made once and no partial
response is returned. -/
theorem c6_upstream_error_translated (s : ServerState) (request : ChatRequest)
    (u : String) (e : PyExn)
    (hclient : s.openai_client_initialized = true)
    (henv : allEnvTruthy s.env = true)
    (huser : lastUserContent request.messages = some u)
    (hne : u ≠ "") :
    chat_completion s (.raises e) request =
      ⟨.http_error (upstreamStatus e)
         ("Erro ao processar a requisição de chat: " ++ upstreamDetail e),
       some [⟨"user", u⟩]⟩
    ∧ (e.status_code = none → upstreamStatus e = 500)
    ∧ ∀ c m, e.status_code = some c → e.message = some m →
        upstreamStatus e = c ∧ upstreamDetail e = m := by
  refine ⟨?_, ?_, ?_⟩
  · rw [chat_completion_raises s e request u hclient henv huser hne]
    rfl
  · intro h
    simp [upstreamStatus, h]
  · intro c m hc hm
    exact ⟨by simp [upstreamStatus, hc], by simp [upstreamDetail, hc, hm]⟩

/-- Claim C6 witness: a concrete 429 upstream error with a message is surfaced
with the upstream status code and message. -/
theorem c6_upstream_error_translated_witness :
    chat_completion serverOK
        (.raises ⟨"boom", some 429, some "Too many requests", none, none⟩)
        ⟨[⟨"user", "q"⟩]⟩ =
      ⟨.http_error 429 "Erro ao processar a requisição de chat: Too many requests",
       some [⟨"user", "q"⟩]⟩ := by
  have h := (c6_upstream_error_translated serverOK ⟨[⟨"user", "q"⟩]⟩ "q"
    ⟨"boom", some 429, some "Too many requests", none, none⟩
    rfl (by decide) (by decide) (by decide)).1
  exact h.trans (by decide)

/-- Claim C7: on a healthy server, a successful completion whose first choice
has content `a` and context `octx` yields exactly
`{message: {role: "assistant", content: a, citations: ...}}`, the citations
being the context's citation records converted in order (empty when the
context carries no citations). -/
theorem c7_success_response_shape (s : ServerState) (request : ChatRequest)
    (u a : String) (octx : Option CompletionContext) (rest : List Choice)
    (hclient : s.openai_client_initialized = true)
    (henv : allEnvTruthy s.env = true)
    (huser : lastUserContent request.messages = some u)
    (hne : u ≠ "")
    (hcits : ∀ c ∈ ctxCitations octx, c.content.isSome = true) :
    chat_completion s (.returns ⟨⟨⟨some a, octx⟩⟩ :: rest⟩) request =
      ⟨.ok ⟨⟨"assistant", a, (ctxCitations octx).map citOf⟩⟩, some [⟨"user", u⟩]⟩ := by
  rw [chat_completion_returns s _ request u hclient henv huser hne]
  have hp : processCompletion ⟨⟨⟨some a, octx⟩⟩ :: rest⟩ =
      .ok ⟨⟨"assistant", a, (ctxCitations octx).map citOf⟩⟩ := by
    simp only [processCompletion]
    rw [extractCitations_clean (some a) octx hcits]
  rw [hp]

/-- Claim C7 witness: a concrete two-citation completion gives the documented
response shape with both citations in order. -/
theorem c7_success_response_shape_witness :
    chat_completion serverOK
        (.returns ⟨[⟨⟨some "resposta",
          some ⟨some [⟨some "c1", some "t1", some "u1", some "f1", some "0"⟩,
                       ⟨some "c2", none, none, none, none⟩]⟩⟩⟩]⟩)
        ⟨[⟨"system", "s"⟩, ⟨"user", "u1"⟩, ⟨"assistant", "a"⟩, ⟨"user", "pergunta"⟩]⟩ =
      ⟨.ok ⟨⟨"assistant", "resposta",
         [⟨"c1", some "t1", some "u1", some "f1", some "0"⟩,
          ⟨"c2", none, none, none, none⟩]⟩⟩,
       some [⟨"user", "pergunta"⟩]⟩ := by
  have h := c7_success_response_shape serverOK
    ⟨[⟨"system", "s"⟩, ⟨"user", "u1"⟩, ⟨"assistant", "a"⟩, ⟨"user", "pergunta"⟩]⟩
    "pergunta" "resposta"
    (some ⟨some [⟨some "c1", some "t1", some "u1", some "f1", some "0"⟩,
                  ⟨some "c2", none, none, none, none⟩]⟩) []
    rfl (by decide) (by decide) (by decide) (by decide)
  exact h.trans (by decide)

/-- Claim C8: the assembled user message of the spec's prompt template
contains the literal query text and the literal assembled context as
substrings (the `/api/chat` variant in `src/` forwards the query verbatim and
delegates context assembly to the external service; the assembler itself is
modelled from the spec). -/
theorem c8_user_message_contains_query_and_context (context query : String) :
    IsSubstringOf query (assembleUserMessage context query)
    ∧ IsSubstringOf context (assembleUserMessage context query) := by
  constructor
  · exact ⟨"Use the following context excerpts to answer the question.\n\nContext:\n"
      ++ context ++ "\n\nQuestion: ", "\n\nAnswer:", rfl⟩
  · refine ⟨"Use the following context excerpts to answer the question.\n\nContext:\n",
      "\n\nQuestion: " ++ query ++ "\n\nAnswer:", ?_⟩
    simp only [assembleUserMessage, String.append_assoc]

/-- Claim C9: for a non-empty query, validation passes exactly when the
result-count parameter lies in `[1,20]`; the parameter defaults to 5 when
absent; and every out-of-range value fails with a client-error signal.  The
validator is a pure function, so no external call is involved. -/
theorem c9_result_limit_validation (r : QueryRequest) (hq : r.query ≠ "") :
    (validateQuery r = .valid ↔ 1 ≤ result_limit r ∧ result_limit r ≤ 20)
    ∧ (r.top_k = none → result_limit r = 5)
    ∧ ((result_limit r < 1 ∨ 20 < result_limit r) →
        validateQuery r = .clientError "result_limit must be in [1,20]") := by
  have hq2 : ¬((r.query == "") = true) := by simp [hq]
  by_cases hr : result_limit r < 1 ∨ 20 < result_limit r
  · have hv : validateQuery r = .clientError "result_limit must be in [1,20]" := by
      rw [validateQuery, if_neg hq2, if_pos hr]
    refine ⟨?_, ?_, fun _ => hv⟩
    · rw [hv]
      constructor
      · intro h
        exact ValidationResult.noConfusion h
      · intro h
        exfalso
        omega
    · intro htop
      simp [result_limit, htop]
  · have hv : validateQuery r = .valid := by
      rw [validateQuery, if_neg hq2, if_neg hr]
    refine ⟨?_, ?_, fun hcon => absurd hcon hr⟩
    · rw [hv]
      constructor
      · intro _
        omega
      · intro _
        rfl
    · intro htop
      simp [result_limit, htop]

/-- Claim C9 witness: a non-empty query with the parameter absent validates
and the effective limit is the default 5. -/
theorem c9_result_limit_validation_witness :
    validateQuery ⟨"What is the refund policy?", none⟩ = .valid
    ∧ result_limit ⟨"What is the refund policy?", none⟩ = 5 := by
  have h := c9_result_limit_validation ⟨"What is the refund policy?", none⟩ (by decide)
  exact ⟨h.1.mpr (by decide), h.2.1 rfl⟩

/-- Claim C10: on a healthy server, whatever the upstream behaviour, the
message list forwarded to the chat-completion service is exactly one user
message whose content is the content of the last `"user"`-role message of the
request; all other request messages are discarded. -/
theorem c10_forwards_exactly_last_user_message (s : ServerState)
    (upstream : UpstreamResult) (request : ChatRequest) (u : String)
    (hclient : s.openai_client_initialized = true)
    (henv : allEnvTruthy s.env = true)
    (huser : lastUserContent request.messages = some u)
    (hne : u ≠ "") :
    (chat_completion s upstream request).forwarded = some [⟨"user", u⟩] := by
  rw [chat_completion_eq_after s upstream request u hclient henv huser hne]
  cases upstream with
  | raises e => rfl
  | returns completion =>
    cases hpc : processCompletion completion with
    | ok resp => simp [hpc]
    | error e => simp [hpc]

/-- Claim C10 witness: a request holding system, assistant and two user
messages forwards exactly the last user message's content. -/
theorem c10_forwards_exactly_last_user_message_witness :
    (chat_completion serverOK (.returns ⟨[]⟩)
        ⟨[⟨"user", "u1"⟩, ⟨"system", "s"⟩, ⟨"user", "u2"⟩, ⟨"assistant", "a"⟩]⟩).forwarded
      = some [⟨"user", "u2"⟩] :=
  c10_forwards_exactly_last_user_message serverOK (.returns ⟨[]⟩)
    ⟨[⟨"user", "u1"⟩, ⟨"system", "s"⟩, ⟨"user", "u2"⟩, ⟨"assistant", "a"⟩]⟩ "u2"
    rfl (by decide) (by decide) (by decide)

end RagBackend
